import Mathlib

/-!
Shallow embedding of the jetpack utility package (sources `ionic.py` and
`style.py`): console notification, optional-capability resolution with
warning-emitting stubs, CSV export, percentage formatting, the Unicode glyph
table, and the global plotting-style state.

Conventions: Python exceptions are `Except.error` results; observable console
output is a list of events (`Ev`); the process-wide side effects of the
capability layer (warnings, network sends) are threaded through an explicit
`ProcState`.
-/

namespace Jetpack

/-- Decidable equality of `Except` results, by cases. -/
instance {ε α : Type} [DecidableEq ε] [DecidableEq α] :
    DecidableEq (Except ε α) := fun x y =>
  match x, y with
  | Except.ok a, Except.ok b =>
    if h : a = b then Decidable.isTrue (h ▸ rfl)
    else Decidable.isFalse (fun hh => h (Except.ok.inj hh))
  | Except.ok _, Except.error _ =>
    Decidable.isFalse (fun hh => Except.noConfusion hh)
  | Except.error _, Except.ok _ =>
    Decidable.isFalse (fun hh => Except.noConfusion hh)
  | Except.error e, Except.error f =>
    if h : e = f then Decidable.isTrue (h ▸ rfl)
    else Decidable.isFalse (fun hh => h (Except.error.inj hh))

/-- Output events observable on standard output: a raw write (the written text
carries any trailing newline explicitly) or a flush of the stream. -/
inductive Ev where
  | write (s : String)
  | flush
deriving DecidableEq, Repr

/-- The `unicodes` table of `ionic.py`: glyph name to Unicode string. -/
def unicodes : List (String × String) := [
  ("mu", "μ"),
  ("degrees", "°"),
  ("micro", "µ"),
  ("lambda", "λ"),
  ("gamma", "γ"),
  ("pi", "π"),
  ("Pi", "∏"),
  ("tau", "τ"),
  ("sigma", "σ"),
  ("rho", "ρ"),
  ("kappa", "κ"),
  ("theta", "θ"),
  ("epsilon", "ε"),
  ("delta", "δ"),
  ("Delta", "Δ"),
  ("phi", "φ"),
  ("Phi", "Φ"),
  ("check", "✔"),
  ("x", "✘"),
  ("star", "✯"),
  ("arrow", "➛"),
  ("pm", "±"),
  ("gradient", "∆"),
  ("nabla", "∇"),
  ("in", "∈"),
  ("exists", "∃"),
  ("forall", "∀"),
  ("not_in", "∉"),
  ("int", "∫"),
  ("grad", "∂"),
  ("partial", "∂"),
  ("sqrt", "√"),
  ("geq", "≥"),
  ("leq", "≤"),
  ("neq", "≠"),
  ("approx", "≃"),
  ("infty", "∞"),
  ("cdot", "∙"),
  ("Sigma", "∑"),
  ("sum", "∑"),
  ("prod", "∏"),
  ("cloud", "☁"),
  ("umbrella", "☂"),
  ("snowflake", "☀"),
  ("dollar", "$")]

/-- Lookup in the glyph table (`unicodes[k]` in the source). -/
def unicode (k : String) : String := (unicodes.lookup k).getD ""

/-- Semantics of a `try ... finally fin` block whose body is given by its
output trace and its outcome: the finalizer output is appended on both the
normal path and the exceptional path, and the body outcome (value or raised
error) is returned unchanged. -/
def tryFinally {E α : Type} (body : List Ev × Except E α) (fin : List Ev) :
    List Ev × Except E α :=
  match body with
  | (out, Except.ok a) => (out ++ fin, Except.ok a)
  | (out, Except.error e) => (out ++ fin, Except.error e)

/-- Events printed by `notify` before the enclosed operation starts: the
loading line (no trailing newline) followed by an explicit flush. -/
def notifyStart (title : String) : List Ev :=
  [Ev.write (unicode "arrow" ++ "  " ++ title ++ "..."), Ev.flush]

/-- Event printed by `notify` when the enclosed block exits (trailing newline
from `print`). -/
def notifyDone : Ev := Ev.write ("Done! " ++ unicode "check" ++ "\n")

/-- Model of the `notify(title)` context manager of `ionic.py` run around an
enclosed operation `op`, which is given by its own output trace and its
outcome (`Except.error` when the operation raises). -/
def notify {E α : Type} (title : String) (op : List Ev × Except E α) :
    List Ev × Except E α :=
  match tryFinally op [notifyDone] with
  | (out, r) => (notifyStart title ++ out, r)

/-- Model of a numpy array as consumed by `csv`: its shape, and, for the two
dimensional case, its rows of rational entries. -/
structure NpArray where
  shape : List Nat
  rows : List (List ℚ)
deriving DecidableEq

/-- Number of dimensions, `data.ndim`. -/
def NpArray.ndim (a : NpArray) : Nat := a.shape.length

/-- Errors raised by `csv`: the two `assert` statements. -/
inductive CsvError where
  | invalidShape
  | headerMismatch
deriving DecidableEq, Repr

/-- The file written by a successful `csv` call: target file name and the
lines of its content. -/
structure CsvFile where
  name : String
  lines : List String
deriving DecidableEq, Repr

/-- Python `str.endswith`, on code points. -/
def pyEndsWith (s suffix : String) : Bool := suffix.data.isSuffixOf s.data

/-- Filename normalization step of `csv`: append the suffix `.csv` when the
given filename does not already end with it. -/
def normCsvName (filename : String) : String :=
  if pyEndsWith filename ".csv" then filename else filename ++ ".csv"

/-- Python truthiness of the `headers` argument (`if headers:`): `None` and
the empty list are falsy, a nonempty list is truthy. -/
def pyTruthy : Option (List String) → Bool
  | Option.none => false
  | Option.some l => !l.isEmpty

/-- Semantics of the `np.savetxt` call made by `csv` (comma delimiter, empty
comment prefix): a header line exactly when `hdr` is nonempty, then one
comma-joined line per data row, each entry rendered by `fmt`. -/
def savetxt (filename : String) (rows : List (List ℚ)) (fmt : ℚ → String)
    (hdr : String) : CsvFile :=
  { name := filename,
    lines := (if hdr = "" then [] else [hdr]) ++
      rows.map (fun r => String.intercalate "," (r.map fmt)) }

/-- Model of `csv(filename, data, headers=None, fmt)` of `ionic.py`. The
numeric format string is modelled by the per-entry formatting function it
denotes; the two assertions are the error results. -/
def csv (filename : String) (data : NpArray)
    (headers : Option (List String)) (fmt : ℚ → String) :
    Except CsvError CsvFile :=
  if data.ndim ≠ 2 then Except.error CsvError.invalidShape
  else if pyTruthy headers then
    (if data.shape.getD 1 0 = (headers.getD []).length then
      Except.ok (savetxt (normCsvName filename) data.rows fmt
        (String.intercalate "," (headers.getD [])))
    else Except.error CsvError.headerMismatch)
  else Except.ok (savetxt (normCsvName filename) data.rows fmt "")

/-- Python values relevant to `as_percent`: numbers (`numbers.Number`,
modelled as rationals) and representative non-numeric values. -/
inductive PyVal where
  | num (q : ℚ)
  | str (s : String)
  | pyNone
  | list (l : List String)
deriving DecidableEq

/-- Error raised by `as_percent` on non-numeric input: the
`TypeError("Numeric type required")` of the source. -/
inductive PercentError where
  | typeMismatch
deriving DecidableEq, Repr

/-- Test used by the `isinstance(x, Number)` branch of `as_percent`. -/
def PyVal.isNum : PyVal → Bool
  | PyVal.num _ => true
  | _ => false

/-- Left-pad a digit string with zeros up to width `w`. -/
def padZeros (w : Nat) (s : String) : String :=
  String.mk (List.replicate (w - s.length) '0') ++ s

/-- Rounding step of fixed-point rendering: the floor of
`q * 10 ^ prec + 1 / 2`, computed on the reduced numerator and denominator of
`q` with flooring integer division. -/
def roundScaled (prec : Nat) (q : ℚ) : ℤ :=
  Int.fdiv (q.num * ((10 ^ prec : ℕ) : ℤ) * 2 + (q.den : ℤ)) (2 * (q.den : ℤ))

/-- Fixed-point rendering with `prec` fractional digits, as performed by the
percent format type after scaling (ties rounded upward; no tie is reachable
from the format paths exercised here). -/
def formatFixed (prec : Nat) (q : ℚ) : String :=
  let scaled : ℤ := roundScaled prec q
  let sign := if scaled < 0 then "-" else ""
  let n := scaled.natAbs
  if prec = 0 then sign ++ toString (n / 10 ^ prec)
  else sign ++ toString (n / 10 ^ prec) ++ "." ++
    padZeros prec (toString (n % 10 ^ prec))

/-- Model of `as_percent(x, precision=0.2)` of `ionic.py`: the format spec
with percent type multiplies the number by 100, renders it fixed-point with
`precision` fractional digits (the default spec string denotes two digits and
zero minimum width) and appends a percent sign; a non-numeric argument raises
a `TypeError`. -/
def as_percent (x : PyVal) (precision : Nat := 2) : Except PercentError String :=
  match x with
  | PyVal.num q => Except.ok (formatFixed precision (q * 100) ++ "%")
  | _ => Except.error PercentError.typeMismatch

/-- Warning text bound by the resolver when the pushover package is missing
(quotes of the source text elided). -/
def pushWarning : String :=
  "Pushover not installed, push() function disabled. Use pip install python-pushover to install pushover."

/-- Warning text bound by the resolver when the emoji package is missing
(quotes of the source text elided). -/
def emojiWarning : String :=
  "Emoji not installed, strings will not emojize automatically. Use pip install emoji to get this feature."

/-- Observable process-wide side effects of the capability layer: the
sequence of warnings emitted through `warnings.warn`, and the network sends
performed by the live pushover client. -/
structure ProcState where
  warnings : List String
  network : List (String × String)
deriving DecidableEq, Repr

/-- State of the `ionic` module after import: which capabilities resolved to
stubs, the final value of the module-global `warning` variable (read by the
stub client at call time), and the glyph-substitution function in effect
(the identity for the stub). -/
structure IonicModule where
  clientIsStub : Bool
  emojizeIsStub : Bool
  warningVar : Option String
  emojiImpl : String → String

/-- Module initialization of `ionic.py`: the two `try ... except ImportError`
blocks, in source order. Returns the resolved module together with the list
of warnings emitted during import. For each missing capability exactly one
warning is emitted and the module-global `warning` is rebound to its text. -/
def importIonic (pushoverAvailable emojiAvailable : Bool)
    (emojiLib : String → String) : IonicModule × List String :=
  let g1 : Option String :=
    if pushoverAvailable then Option.none else Option.some pushWarning
  let w1 : List String := if pushoverAvailable then [] else [pushWarning]
  let g2 : Option String :=
    if emojiAvailable then g1 else Option.some emojiWarning
  let w2 : List String := if emojiAvailable then [] else [emojiWarning]
  ({ clientIsStub := !pushoverAvailable,
     emojizeIsStub := !emojiAvailable,
     warningVar := g2,
     emojiImpl := if emojiAvailable then emojiLib else fun x => x },
   w1 ++ w2)

/-- Behaviour of `Client().send_message(message, title=title)` under the
resolved module: the stub client warns with the current value of the
module-global `warning` and touches no network; the live client performs the
network send and emits no warning. -/
def sendMessage (m : IonicModule) (message title : String) (s : ProcState) :
    ProcState :=
  if m.clientIsStub then
    { s with warnings := s.warnings ++ [m.warningVar.getD ""] }
  else
    { s with network := s.network ++ [(message, title)] }

/-- Model of `push(message, title=empty)` of `ionic.py`: both strings pass
through the resolved glyph-substitution function, then the resolved client
sends them. -/
def push (m : IonicModule) (message : String) (title : String)
    (s : ProcState) : ProcState :=
  sendMessage m (m.emojiImpl message) (m.emojiImpl title) s

/-- Values held by the style configuration (matplotlib `rcParams`): strings,
numbers, booleans, the Python `None`, numeric pairs, and color cycles. -/
inductive RcValue where
  | str (s : String)
  | num (q : ℚ)
  | bool (b : Bool)
  | none
  | pair (a b : ℚ)
  | cycle (colors : List String)
deriving DecidableEq, Repr

/-- Style configuration: a total assignment of a value to every parameter
name. -/
def RcParams := String → RcValue

/-- First-match association lookup on an update list. -/
def rcLookup (k : String) : List (String × RcValue) → Option RcValue
  | [] => Option.none
  | (a, v) :: rest => if k = a then Option.some v else rcLookup k rest

/-- Semantics of `rcParams.update(m)` (and of a single keyed assignment):
keys present in `m` take their new value, every other key is unchanged. -/
def rcUpdate (m : List (String × RcValue)) (s : RcParams) : RcParams :=
  fun k => (rcLookup k m).getD (s k)

/-- Model of `set_colors(bg, fg, text)` of `style.py`: one atomic update of
the twelve color parameters. -/
def set_colors (bg fg text : String) (s : RcParams) : RcParams :=
  rcUpdate [
    ("figure.facecolor", RcValue.str bg),
    ("figure.edgecolor", RcValue.str bg),
    ("axes.facecolor", RcValue.str bg),
    ("savefig.facecolor", RcValue.str bg),
    ("savefig.edgecolor", RcValue.str bg),
    ("axes.edgecolor", RcValue.str fg),
    ("axes.labelcolor", RcValue.str fg),
    ("xtick.color", RcValue.str fg),
    ("ytick.color", RcValue.str fg),
    ("legend.edgecolor", RcValue.str fg),
    ("grid.color", RcValue.str fg),
    ("text.color", RcValue.str text)] s

/-- Modelled from the spec: the palette constants of the repository color
module (`jetpack.colors`, imported as `c` by `style.py` but not present under
the sources). The spec fixes only that each mode uses a fixed palette, so the
constants are carried as parameters. -/
structure Palette where
  white : String
  black : String
  gray1 : String
  gray4 : String
  gray6 : String
  gray9 : String
  dark : List String
  bright : List String

/-- Model of `light_mode()`: the light color palette, then the dark-on-light
color cycle. -/
def light_mode (c : Palette) (s : RcParams) : RcParams :=
  rcUpdate [("axes.prop_cycle", RcValue.cycle c.dark)]
    (set_colors c.white c.gray9 c.gray6 s)

/-- Model of `dark_mode()`: the dark color palette, then the bright-on-dark
color cycle. -/
def dark_mode (c : Palette) (s : RcParams) : RcParams :=
  rcUpdate [("axes.prop_cycle", RcValue.cycle c.bright)]
    (set_colors c.black c.gray1 c.gray4 s)

/-- Lexicographic strict order on code-point sequences, the order used by
the `sorted` builtin on strings. -/
def strLtList : List Char → List Char → Bool
  | [], [] => false
  | [], _ :: _ => true
  | _ :: _, [] => false
  | a :: as, b :: bs =>
    if a.toNat < b.toNat then true
    else if b.toNat < a.toNat then false
    else strLtList as bs

/-- Strict lexicographic order on strings by code points. -/
def strLt (a b : String) : Bool := strLtList a.data b.data

/-- Comparison used to sort font names ascending: `a` precedes `b` when `b`
is not strictly below `a`. -/
def strLe (a b : String) : Bool := !(strLt b a)

/-- Ordered insertion into an ascending list of font names. -/
def insortStr (x : String) : List String → List String
  | [] => [x]
  | y :: ys => if strLe x y then x :: y :: ys else y :: insortStr x ys

/-- Ascending sort of font names (insertion sort; same ascending order as
the `sorted` builtin applied by the source). -/
def sortStr : List String → List String
  | [] => []
  | x :: xs => insortStr x (sortStr xs)

/-- Model of `available_fonts()` of `style.py`: the sorted set of the font
names of the rendering engine's font registry, which is passed in as
`ttflist`. -/
def available_fonts (ttflist : List String) : List String :=
  sortStr ttflist.dedup

/-- Model of `set_font(fontname)` of `style.py`: validate membership in
`available_fonts()`, raising `ValueError` otherwise, then update the single
font-family parameter. -/
def set_font (ttflist : List String) (fontname : String) (s : RcParams) :
    Except String RcParams :=
  if fontname ∉ available_fonts ttflist then
    Except.error ("Font " ++ fontname ++ " not found.")
  else
    Except.ok (rcUpdate [("font.family", RcValue.str fontname)] s)

/-! Helper lemmas shared by the claim theorems. -/

/-- Lookup misses carry over between update lists with the same key column. -/
theorem rcLookup_none_of_keys_eq :
    ∀ (l1 l2 : List (String × RcValue)),
      l1.map Prod.fst = l2.map Prod.fst →
      ∀ k, rcLookup k l2 = Option.none → rcLookup k l1 = Option.none := by
  intro l1
  induction l1 with
  | nil => intro l2 h k hk; rfl
  | cons a t ih =>
    intro l2 h k hk
    cases l2 with
    | nil => simp at h
    | cons b t2 =>
      obtain ⟨a1, av⟩ := a
      obtain ⟨b1, bv⟩ := b
      simp only [List.map_cons, List.cons.injEq] at h
      simp only [rcLookup] at hk ⊢
      by_cases hkb : k = b1
      · rw [if_pos hkb] at hk; simp at hk
      · rw [if_neg hkb] at hk
        rw [if_neg (fun hh => hkb (hh.trans h.1))]
        exact ih t2 h.2 k hk

/-- Updates whose key columns agree with a later pair of updates are fully
overwritten by them. -/
theorem rcUpdate_override (m1 m2 m1' m2' : List (String × RcValue))
    (h1 : m1.map Prod.fst = m1'.map Prod.fst)
    (h2 : m2.map Prod.fst = m2'.map Prod.fst) (s : RcParams) :
    rcUpdate m1' (rcUpdate m2' (rcUpdate m1 (rcUpdate m2 s))) =
      rcUpdate m1' (rcUpdate m2' s) := by
  funext k
  simp only [rcUpdate]
  cases ha : rcLookup k m1' with
  | some v => simp [ha]
  | none =>
    cases hb : rcLookup k m2' with
    | some v => simp [ha, hb]
    | none =>
      simp [ha, hb, rcLookup_none_of_keys_eq m1 m1' h1 k ha,
        rcLookup_none_of_keys_eq m2 m2' h2 k hb]

/-- Appending a suffix makes `pyEndsWith` hold for that suffix. -/
theorem pyEndsWith_append (s t : String) : pyEndsWith (s ++ t) t = true := by
  simp [pyEndsWith, List.isSuffixOf_iff_suffix, String.data_append]

/-- Normalized CSV file names always end in the `.csv` suffix. -/
theorem pyEndsWith_norm (fn : String) :
    pyEndsWith (normCsvName fn) ".csv" = true := by
  unfold normCsvName
  by_cases h : pyEndsWith fn ".csv" = true
  · simp [h]
  · simp [h, pyEndsWith_append]

/-- C1: under the scoped console report `notify(title)`, the loading line
(arrow glyph, two spaces, title, ellipsis; no trailing newline, then a
flush) is emitted before any output of the enclosed operation, the
completion line `Done! <check-glyph>` with trailing newline is emitted after
the operation concludes on every exit path, the original error is propagated
unchanged, and for an operation that prints nothing and raises, the
observable output sequence is exactly the loading line followed by the
completion line. -/
theorem notify_bracketing {E α : Type} (title : String)
    (op : List Ev × Except E α) :
    notify title op = (notifyStart title ++ op.1 ++ [notifyDone], op.2) ∧
    (op.1 = [] → ∀ e : E, op.2 = Except.error e →
      notify title op =
        ([Ev.write (unicode "arrow" ++ "  " ++ title ++ "..."), Ev.flush,
          Ev.write ("Done! " ++ unicode "check" ++ "\n")], Except.error e)) := by
  obtain ⟨out, r⟩ := op
  constructor
  · cases r <;> simp [notify, tryFinally, List.append_assoc]
  · intro h e h2
    simp only at h h2
    subst h
    subst h2
    simp [notify, tryFinally, notifyStart, notifyDone]

/-- Witness for C1: a silent enclosed operation raising a runtime error. -/
theorem notify_bracketing_witness :
    (([], Except.error "boom") : List Ev × Except String Unit).1 = [] ∧
    (([], Except.error "boom") : List Ev × Except String Unit).2 =
      Except.error "boom" ∧
    notify "Working" (([], Except.error "boom") : List Ev × Except String Unit) =
      ([Ev.write (unicode "arrow" ++ "  " ++ "Working" ++ "..."), Ev.flush,
        Ev.write ("Done! " ++ unicode "check" ++ "\n")], Except.error "boom") :=
  ⟨rfl, rfl, (notify_bracketing "Working" ([], Except.error "boom")).2 rfl "boom" rfl⟩

/-- C2: `set_font(name)` with a name outside `available_fonts()` fails with
the `ValueError` result and produces no new configuration (the prior state
is untouched); with a name in the set it succeeds and updates exactly the
font-family parameter, leaving every other parameter unchanged. -/
theorem set_font_validates (ttf : List String) (name : String) (s : RcParams) :
    (name ∉ available_fonts ttf →
      set_font ttf name s = Except.error ("Font " ++ name ++ " not found.")) ∧
    (name ∈ available_fonts ttf →
      set_font ttf name s =
        Except.ok (rcUpdate [("font.family", RcValue.str name)] s) ∧
      rcUpdate [("font.family", RcValue.str name)] s "font.family" =
        RcValue.str name ∧
      ∀ k, k ≠ "font.family" →
        rcUpdate [("font.family", RcValue.str name)] s k = s k) := by
  constructor
  · intro h
    simp [set_font, h]
  · intro h
    refine ⟨by simp [set_font, h], by simp [rcUpdate, rcLookup], ?_⟩
    intro k hk
    simp [rcUpdate, rcLookup, hk]

/-- Witness for C2: a missing font is rejected, an installed font accepted. -/
theorem set_font_validates_witness :
    ("NonexistentFontXYZ" ∉ available_fonts ["Arial"] ∧
      set_font ["Arial"] "NonexistentFontXYZ" (fun _ => RcValue.none) =
        Except.error ("Font " ++ "NonexistentFontXYZ" ++ " not found.")) ∧
    ("Arial" ∈ available_fonts ["Arial"] ∧
      set_font ["Arial"] "Arial" (fun _ => RcValue.none) =
        Except.ok (rcUpdate [("font.family", RcValue.str "Arial")]
          (fun _ => RcValue.none))) :=
  ⟨⟨by decide, (set_font_validates ["Arial"] "NonexistentFontXYZ"
      (fun _ => RcValue.none)).1 (by decide)⟩,
   ⟨by decide, ((set_font_validates ["Arial"] "Arial"
      (fun _ => RcValue.none)).2 (by decide)).1⟩⟩

/-- C5: running `light_mode()` and then immediately `dark_mode()` leaves the
style configuration in exactly the state produced by `dark_mode()` alone —
every parameter written by the light preset (the twelve color parameters and
the color cycle) is overwritten by the dark preset, so no light-mode residue
remains for any starting state and any palette. -/
theorem dark_mode_overrides_light_mode (c : Palette) (s : RcParams) :
    dark_mode c (light_mode c s) = dark_mode c s :=
  rcUpdate_override
    [("axes.prop_cycle", RcValue.cycle c.dark)]
    [("figure.facecolor", RcValue.str c.white),
     ("figure.edgecolor", RcValue.str c.white),
     ("axes.facecolor", RcValue.str c.white),
     ("savefig.facecolor", RcValue.str c.white),
     ("savefig.edgecolor", RcValue.str c.white),
     ("axes.edgecolor", RcValue.str c.gray9),
     ("axes.labelcolor", RcValue.str c.gray9),
     ("xtick.color", RcValue.str c.gray9),
     ("ytick.color", RcValue.str c.gray9),
     ("legend.edgecolor", RcValue.str c.gray9),
     ("grid.color", RcValue.str c.gray9),
     ("text.color", RcValue.str c.gray6)]
    [("axes.prop_cycle", RcValue.cycle c.bright)]
    [("figure.facecolor", RcValue.str c.black),
     ("figure.edgecolor", RcValue.str c.black),
     ("axes.facecolor", RcValue.str c.black),
     ("savefig.facecolor", RcValue.str c.black),
     ("savefig.edgecolor", RcValue.str c.black),
     ("axes.edgecolor", RcValue.str c.gray1),
     ("axes.labelcolor", RcValue.str c.gray1),
     ("xtick.color", RcValue.str c.gray1),
     ("ytick.color", RcValue.str c.gray1),
     ("legend.edgecolor", RcValue.str c.gray1),
     ("grid.color", RcValue.str c.gray1),
     ("text.color", RcValue.str c.gray4)]
    rfl rfl s

/-- C3 counterexample: with the given header list `[]` and a 2-D array with
one column (a length mismatch, 0 against 1), `csv` does not raise
HeaderMismatch — it succeeds and writes the file without a header row,
because the headers argument is tested for truthiness. -/
theorem csv_empty_headers_mismatch_not_raised :
    NpArray.ndim ⟨[1, 1], [[0]]⟩ = 2 ∧
    List.length ([] : List String) ≠
      (NpArray.shape ⟨[1, 1], [[(0 : ℚ)]]⟩).getD 1 0 ∧
    csv "f" ⟨[1, 1], [[0]]⟩ (Option.some []) (fun _ => "0") =
      Except.ok ⟨"f.csv", ["0"]⟩ :=
  ⟨rfl, by decide, by decide⟩

/-- C3 (amended): for every 2-D array and every given nonempty header list
whose length differs from the column count, `csv` fails with HeaderMismatch
and produces no file; when the lengths match (and the comma-join of the
headers is nonempty, as `np.savetxt` drops an empty header line), the
written file starts with the comma-joined header line followed by one line
per data row, so its line count is the row count plus one. -/
theorem csv_header_mismatch (fn : String) (data : NpArray) (hs : List String)
    (fmt : ℚ → String) (hne : hs ≠ []) :
    (data.ndim = 2 → hs.length ≠ data.shape.getD 1 0 →
      csv fn data (Option.some hs) fmt = Except.error CsvError.headerMismatch) ∧
    (data.ndim = 2 → hs.length = data.shape.getD 1 0 →
      String.intercalate "," hs ≠ "" →
      csv fn data (Option.some hs) fmt =
        Except.ok ⟨normCsvName fn,
          String.intercalate "," hs ::
            data.rows.map (fun r => String.intercalate "," (r.map fmt))⟩) ∧
    (data.rows.length = data.shape.getD 0 0 →
      (String.intercalate "," hs ::
        data.rows.map (fun r => String.intercalate "," (r.map fmt))).length =
        data.shape.getD 0 0 + 1) := by
  have ht : pyTruthy (Option.some hs) = true := by
    cases hs with
    | nil => exact absurd rfl hne
    | cons a t => rfl
  refine ⟨?_, ?_, ?_⟩
  · intro h2 hm
    have hc : ¬ (data.shape.getD 1 0 = ((Option.some hs).getD []).length) :=
      fun hh => hm (Eq.symm hh)
    unfold csv
    rw [if_neg (fun hh => hh h2), if_pos ht, if_neg hc]
  · intro h2 hm hj
    have hc : data.shape.getD 1 0 = ((Option.some hs).getD []).length :=
      Eq.symm hm
    unfold csv
    rw [if_neg (fun hh => hh h2), if_pos ht, if_pos hc]
    simp [savetxt, hj]
  · intro hr
    simp [hr]

/-- Witness for C3: a one-header list against a two-column array fails, a
matching two-header list succeeds with the header line first. -/
theorem csv_header_mismatch_witness :
    (["a"] : List String) ≠ [] ∧
    NpArray.ndim ⟨[1, 2], [[0, 0]]⟩ = 2 ∧
    List.length ["a"] ≠ (NpArray.shape ⟨[1, 2], [[(0 : ℚ), 0]]⟩).getD 1 0 ∧
    csv "f" ⟨[1, 2], [[0, 0]]⟩ (Option.some ["a"]) (fun _ => "0") =
      Except.error CsvError.headerMismatch ∧
    csv "f" ⟨[1, 2], [[0, 0]]⟩ (Option.some ["a", "b"]) (fun _ => "0") =
      Except.ok ⟨normCsvName "f",
        String.intercalate "," ["a", "b"] ::
          List.map (fun r => String.intercalate "," (r.map (fun _ => "0")))
            [[(0 : ℚ), 0]]⟩ :=
  ⟨by decide, rfl, by decide,
   (csv_header_mismatch "f" ⟨[1, 2], [[0, 0]]⟩ ["a"] (fun _ => "0")
      (by decide)).1 rfl (by decide),
   ((csv_header_mismatch "f" ⟨[1, 2], [[0, 0]]⟩ ["a", "b"] (fun _ => "0")
      (by decide)).2.1 rfl (by decide) (by decide))⟩

/-- C7: for every array whose number of dimensions is not exactly 2, `csv`
fails with InvalidShape; the validation is the first step of the operation,
before the file value is produced, so nothing is written. -/
theorem csv_invalid_shape (fn : String) (data : NpArray)
    (hs : Option (List String)) (fmt : ℚ → String) (h : data.ndim ≠ 2) :
    csv fn data hs fmt = Except.error CsvError.invalidShape := by
  simp [csv, h]

/-- Witness for C7: a one-dimensional array is rejected. -/
theorem csv_invalid_shape_witness :
    NpArray.ndim ⟨[3], []⟩ ≠ 2 ∧
    csv "f" ⟨[3], []⟩ Option.none (fun _ => "") =
      Except.error CsvError.invalidShape :=
  ⟨by decide, csv_invalid_shape "f" ⟨[3], []⟩ Option.none (fun _ => "")
    (by decide)⟩

/-- C9: every file written by `csv` has a name ending in `.csv`; the given
filename is used as-is when it already ends in `.csv` and gets the suffix
appended exactly once otherwise; and the written lines are the same whatever
filename is given. -/
theorem csv_filename_normalization (fn : String) (data : NpArray)
    (hs : Option (List String)) (fmt : ℚ → String) (file : CsvFile)
    (h : csv fn data hs fmt = Except.ok file) :
    file.name = (if pyEndsWith fn ".csv" then fn else fn ++ ".csv") ∧
    pyEndsWith file.name ".csv" = true ∧
    ∀ fn2, csv fn2 data hs fmt = Except.ok ⟨normCsvName fn2, file.lines⟩ := by
  by_cases h2 : data.ndim ≠ 2
  · simp [csv, h2] at h
  · by_cases ht : pyTruthy hs = true
    · by_cases hc : data.shape.getD 1 0 = (hs.getD []).length
      · unfold csv at h
        rw [if_neg h2, if_pos ht, if_pos hc] at h
        injection h with h
        subst h
        refine ⟨rfl, pyEndsWith_norm fn, fun fn2 => ?_⟩
        unfold csv
        rw [if_neg h2, if_pos ht, if_pos hc]
        rfl
      · unfold csv at h
        rw [if_neg h2, if_pos ht, if_neg hc] at h
        simp at h
    · unfold csv at h
      rw [if_neg h2, if_neg ht] at h
      injection h with h
      subst h
      refine ⟨rfl, pyEndsWith_norm fn, fun fn2 => ?_⟩
      unfold csv
      rw [if_neg h2, if_neg ht]
      rfl

/-- Witness for C9: a filename without the suffix gets it appended; the same
data written under another name yields the same lines. -/
theorem csv_filename_normalization_witness :
    csv "out" ⟨[1, 1], [[1]]⟩ Option.none (fun _ => "1") =
      Except.ok ⟨"out.csv", ["1"]⟩ ∧
    CsvFile.name ⟨"out.csv", ["1"]⟩ =
      (if pyEndsWith "out" ".csv" then "out" else "out" ++ ".csv") ∧
    pyEndsWith (CsvFile.name ⟨"out.csv", ["1"]⟩) ".csv" = true ∧
    csv "already.csv" ⟨[1, 1], [[1]]⟩ Option.none (fun _ => "1") =
      Except.ok ⟨normCsvName "already.csv", CsvFile.lines ⟨"out.csv", ["1"]⟩⟩ :=
  have h : csv "out" ⟨[1, 1], [[1]]⟩ Option.none (fun _ => "1") =
      Except.ok ⟨"out.csv", ["1"]⟩ := by decide
  ⟨h, (csv_filename_normalization "out" ⟨[1, 1], [[1]]⟩ Option.none
      (fun _ => "1") ⟨"out.csv", ["1"]⟩ h).1,
   (csv_filename_normalization "out" ⟨[1, 1], [[1]]⟩ Option.none
      (fun _ => "1") ⟨"out.csv", ["1"]⟩ h).2.1,
   (csv_filename_normalization "out" ⟨[1, 1], [[1]]⟩ Option.none
      (fun _ => "1") ⟨"out.csv", ["1"]⟩ h).2.2 "already.csv"⟩

/-- C10: calling `csv` with the empty header list behaves identically to
omitting the headers — the truthiness test skips the length validation and
the header row even when the array has columns, and HeaderMismatch is never
raised. -/
theorem csv_empty_headers_like_none (fn : String) (data : NpArray)
    (fmt : ℚ → String) :
    csv fn data (Option.some []) fmt = csv fn data Option.none fmt ∧
    csv fn data (Option.some []) fmt ≠ Except.error CsvError.headerMismatch := by
  constructor
  · rfl
  · by_cases h : data.ndim ≠ 2 <;> simp [csv, h, pyTruthy]

/-- C4 counterexample: with the push capability missing (and emoji present),
module initialization emits one warning, and a single subsequent call to the
stub send operation emits a further warning — two warnings for the push
capability in one process, refuting the at-most-one-per-capability claim. -/
theorem push_stub_second_warning :
    (importIonic false true (fun x => x)).2 = [pushWarning] ∧
    (push (importIonic false true (fun x => x)).1 "hello" ""
        ⟨(importIonic false true (fun x => x)).2, []⟩).warnings =
      [pushWarning, pushWarning] :=
  ⟨rfl, rfl⟩

/-- C4 (amended): resolution emits exactly one warning per missing
capability; the stub glyph-substitution handle is a pure pass-through and
never warns on use, but the stub push-send handle emits one further warning
on every invocation (with the text of whichever capability warning the
module-global was last bound to), while the live send handle emits none. -/
theorem capability_warning_discipline (pa ea : Bool) (lib : String → String)
    (msg title : String) (s : ProcState) :
    (importIonic pa ea lib).2 =
      (if pa then [] else [pushWarning]) ++
        (if ea then [] else [emojiWarning]) ∧
    (push (importIonic pa ea lib).1 msg title s).warnings =
      (if pa then s.warnings
       else s.warnings ++ [((importIonic pa ea lib).1.warningVar).getD ""]) ∧
    (importIonic false ea lib).1.warningVar =
      (if ea then Option.some pushWarning else Option.some emojiWarning) ∧
    (importIonic pa false lib).1.emojiImpl = (fun x => x) := by
  cases pa <;> cases ea <;>
    simp [importIonic, push, sendMessage]

/-- C6: when the push-transport capability is unavailable at process start,
the resolver installs a call-compatible stub without failing the import, and
every `push(message)` call returns normally with no network send (its only
effect is the stub warning). -/
theorem push_stub_no_network (ea : Bool) (lib : String → String)
    (msg title : String) (s : ProcState) :
    (importIonic false ea lib).1.clientIsStub = true ∧
    (push (importIonic false ea lib).1 msg title s).network = s.network ∧
    (push (importIonic false ea lib).1 msg title s).warnings =
      s.warnings ++ [((importIonic false ea lib).1.warningVar).getD ""] := by
  have hstub : (importIonic false ea lib).1.clientIsStub = true := rfl
  refine ⟨hstub, ?_, ?_⟩ <;> simp [push, sendMessage, hstub]

/-- C8: `as_percent(0.5)` returns the string `50.00%`, and every non-numeric
input makes `as_percent` raise the TypeError result instead of returning a
value. -/
theorem as_percent_spec :
    as_percent (PyVal.num (1 / 2)) = Except.ok "50.00%" ∧
    ∀ v : PyVal, v.isNum = false →
      as_percent v = Except.error PercentError.typeMismatch := by
  constructor
  · have h : ((1 : ℚ) / 2 * 100) = 50 := by norm_num
    calc as_percent (PyVal.num (1 / 2))
        = Except.ok (formatFixed 2 ((1 : ℚ) / 2 * 100) ++ "%") := rfl
      _ = Except.ok (formatFixed 2 (50 : ℚ) ++ "%") := by rw [h]
      _ = Except.ok "50.00%" := by
          simp only [formatFixed, roundScaled, Rat.num_ofNat, Rat.den_ofNat]
          decide
  · intro v h
    cases v with
    | num q => simp [PyVal.isNum] at h
    | str s => rfl
    | pyNone => rfl
    | list l => rfl

/-- Witness for C8: the string input is non-numeric and is rejected. -/
theorem as_percent_spec_witness :
    PyVal.isNum (PyVal.str "a") = false ∧
    as_percent (PyVal.str "a") = Except.error PercentError.typeMismatch :=
  ⟨rfl, as_percent_spec.2 (PyVal.str "a") rfl⟩

end Jetpack
